import Mathlib

/-
Shallow embedding of `src/pybot/pybot.py`, a minimal chat-bot runtime:
an event bus, a matcher hierarchy (regex matcher and direct-address
matcher), listeners binding matchers to handlers, an adapter layer, and
the `Robot` orchestrator with its dispatch entry point `receive`.

Modelling conventions:
- Python strings are Lean `String` / `List Char`; the repository only
  handles ASCII text, so Python `str.lower` is `Char.toLower`.
- Optional values (Python `None`) are `Option`.
- Handlers registered on the `EventBus` are compared by reference
  identity in Python (`if f not in listeners`); the embedding names a
  handler by an opaque `Nat` identifier and separates its behaviour
  into an environment passed to `publish`.
- Code that can raise is modelled in `Except`.
- The `re` patterns used through `RegexMatcher` are modelled as literal
  substring patterns: `re.search` becomes the leftmost unanchored
  occurrence of the pattern string.
-/

namespace Pybot

/-- Embeds `User = namedtuple("User", ["id", "name"])`. -/
structure User where
  id : Nat
  name : String
deriving Repr, DecidableEq

/-- Embeds `class Message`: `user`, `text` and `id` may be `None`. -/
structure Message where
  user : Option User
  room : String
  text : Option String
  id : Option Nat
deriving Repr, DecidableEq

/-- Python `str.lower` on a character list (ASCII). -/
def pyLower (s : List Char) : List Char := s.map Char.toLower

/-- Python `s.split(" ")`: splits at every single space character and keeps
empty fields, so a leading space yields a leading empty token, and no other
whitespace character delimits.  In Python `"".split(" ") == [""]`, matched
by the base case. -/
def splitOnSpaceChar : List Char → List (List Char)
  | [] => [[]]
  | c :: rest =>
    if c = ' ' then [] :: splitOnSpaceChar rest
    else
      match splitOnSpaceChar rest with
      | [] => [[c]]
      | t :: ts => (c :: t) :: ts

/-- Python `s.lstrip(" ")`: drops leading space characters. -/
def lstripSpace (s : List Char) : List Char := s.dropWhile (· = ' ')

/-- Membership in the strip set of `rstrip(" :-=")`. -/
def isAddressTrailChar (c : Char) : Bool :=
  c = ' ' ∨ c = ':' ∨ c = '-' ∨ c = '='

/-- Python `s.rstrip(" :-=")`: drops all trailing characters drawn from the
set of space, colon, hyphen and equals characters. -/
def rstripAddressChars (s : List Char) : List Char :=
  (s.reverse.dropWhile isAddressTrailChar).reverse

/-- Match result produced by a matcher: position of the occurrence and the
matched text (literal-pattern model of a Python match object). -/
structure MatchRes where
  pos : Nat
  matched : String
deriving Repr, DecidableEq

/-- Leftmost index at which `pat` occurs in `t`: the model of Python
`re.search` for a literal pattern (unanchored; the empty pattern matches
at index 0, also in the empty string). -/
def searchAux (pat : List Char) : List Char → Option Nat
  | [] => if pat.isPrefixOf [] then some 0 else none
  | c :: rest =>
    if pat.isPrefixOf (c :: rest) then some 0
    else (searchAux pat rest).map (· + 1)

/-- Embeds `RegexMatcher.match` (the source method is named `match`, a Lean
keyword).  Source: `if message.text: return self.regex.search(message.text)` —
when `message.text` is falsy (`None` or the empty string) the method falls
through and returns `None`; otherwise it returns the unanchored search
result. -/
def RegexMatcher.matchMsg (pattern : String) (msg : Message) : Option MatchRes :=
  match msg.text with
  | none => none
  | some t =>
    if t = "" then none
    else (searchAux pattern.data t.data).map fun i => ⟨i, pattern⟩

/-- Embeds `DirectMessageMatcher.match`.  Source: guard falsy text, then
`tokens = message.text.lower().split(" ")`, guard empty token list, then
`first_token = tokens[0].lstrip(" ").rstrip(" :-=")`; when `first_token`
equals the bot name lowered at construction (`self.name = name.lower()`),
delegate to `self.wrapped.match(message)` on the original message, else
fall through to `None`. -/
def DirectMessageMatcher.matchMsg (wrapped : Message → Option MatchRes)
    (name : String) (msg : Message) : Option MatchRes :=
  match msg.text with
  | none => none
  | some t =>
    if t = "" then none
    else
      match splitOnSpaceChar (pyLower t.data) with
      | [] => none
      | tok :: _ =>
        if rstripAddressChars (lstripSpace tok) = pyLower name.data then wrapped msg
        else none

/-- The address check of `DirectMessageMatcher.match` as a standalone
predicate on the bot name and the optional message text: the first token of
the lowercased text split on single space characters, with leading spaces
and trailing space, colon, hyphen and equals characters stripped, equals
the lowercased bot name; `false` on absent or empty text. -/
def dmmAddressCheck (name : String) (t : Option String) : Bool :=
  match t with
  | none => false
  | some t =>
    if t = "" then false
    else
      match splitOnSpaceChar (pyLower t.data) with
      | [] => false
      | tok :: _ =>
        rstripAddressChars (lstripSpace tok) = pyLower name.data

/-- Python whitespace as recognised by `str.split()` with no arguments. -/
def isPyWhitespace (c : Char) : Bool :=
  c = ' ' ∨ c = '\t' ∨ c = '\n' ∨ c = '\r' ∨ c = '\x0b' ∨ c = '\x0c'

/-- Python `str.split()` with no arguments: split on whitespace, dropping
empty fields. -/
def splitWhitespace (s : List Char) : List (List Char) :=
  (s.splitOnP isPyWhitespace).filter (fun x => !x.isEmpty)

/-- The address condition in the words of claim C2 (for comparison with the
code-side `dmmAddressCheck`): the message text has a first
whitespace-delimited token which, after stripping leading spaces and
stripping trailing colon, hyphen, equals and space characters, equals
`botName` case-insensitively; `false` when the text is absent or has no
tokens. -/
def claimWhitespaceAddressCheck (name : String) (t : Option String) : Bool :=
  match t with
  | none => false
  | some t =>
    match splitWhitespace t.data with
    | [] => false
    | tok :: _ =>
      pyLower (rstripAddressChars (lstripSpace tok)) = pyLower name.data

/-- Embeds `class EventBus`: `self._listeners = defaultdict(list)`, a map
from event type to the ordered list of subscribed handler identifiers
(unknown event types have the empty list). -/
structure EventBus where
  subs : String → List Nat

/-- The bus of a freshly constructed `Robot`. -/
def EventBus.empty : EventBus := ⟨fun _ => []⟩

/-- Embeds `EventBus.subscribe`: `if f not in listeners: listeners.append(f)` —
appends `f` to the list for `type` unless already present. -/
def EventBus.subscribe (b : EventBus) (type : String) (f : Nat) : EventBus :=
  if f ∈ b.subs type then b
  else ⟨fun t => if t = type then b.subs type ++ [f] else b.subs t⟩

/-- Python `list.remove`: removes the first occurrence of `f`, or `none`
when `f` is absent (where Python raises `ValueError`). -/
def removeFirst (f : Nat) : List Nat → Option (List Nat)
  | [] => none
  | x :: xs => if x = f then some xs else (removeFirst f xs).map (x :: ·)

/-- The error of `EventBus.unsubscribe` on an unregistered handler: Python
`ValueError` from `list.remove`, called `SubscriptionNotFoundError` in the
spec taxonomy. -/
inductive SubscriptionNotFoundError
  | mk
deriving Repr, DecidableEq

/-- Embeds `EventBus.unsubscribe`: `self._listeners[type].remove(f)`. -/
def EventBus.unsubscribe (b : EventBus) (type : String) (f : Nat) :
    Except SubscriptionNotFoundError EventBus :=
  match removeFirst f (b.subs type) with
  | none => .error .mk
  | some l => .ok ⟨fun t => if t = type then l else b.subs t⟩

/-- Runs event handlers in order, synchronously, each applied to `data`;
the first raising handler aborts the remaining ones.  Returns the list of
handlers actually invoked (in order) together with the propagated error,
if any.  `beh` gives each handler identifier its behaviour. -/
def runHandlers (beh : Nat → Option String → Except String Unit)
    (data : Option String) : List Nat → List Nat × Option String
  | [] => ([], none)
  | h :: rest =>
    match beh h data with
    | .ok _ =>
      let r := runHandlers beh data rest
      (h :: r.1, r.2)
    | .error e => ([h], some e)

/-- Embeds `EventBus.publish`:
`for listener in self._listeners[type]: listener(data)`. -/
def EventBus.publish (b : EventBus) (type : String)
    (beh : Nat → Option String → Except String Unit) (data : Option String) :
    List Nat × Option String :=
  runHandlers beh data (b.subs type)

/-- A handler behaviour that never raises. -/
def alwaysOk : Nat → Option String → Except String Unit := fun _ _ => .ok ()

/-- Embeds `Response(robot, message, match)`.  The `robot` back-reference
only forwards outbound calls to the adapter and carries no data the
dispatch claims observe, so it is omitted here. -/
structure Response where
  message : Message
  matched : MatchRes

/-- The type of a bound listener handler; a raising handler is
`Except.error`. -/
def Handler : Type := Response → Except String Unit

/-- Embeds `class Listener`: binds a matcher to a handler function. -/
structure Listener where
  matcher : Message → Option MatchRes
  func : Handler

/-- Embeds `Listener.__call__`: run the matcher; `if not match: return False`
without touching the handler; otherwise build a `Response`, call the handler
(its exception is not caught here) and return `True`. -/
def Listener.call (l : Listener) (msg : Message) : Except String Bool :=
  match l.matcher msg with
  | none => .ok false
  | some m =>
    match l.func ⟨msg, m⟩ with
    | .ok _ => .ok true
    | .error e => .error e

/-- Observable outcome of one iteration of the `receive` loop for one
listener. -/
inductive DispatchOutcome
  | noMatch
  | handled
  | errorLogged (e : String)
deriving Repr, DecidableEq

/-- One iteration of the `Robot.receive` loop:
`try: listener(message) except: traceback.print_exc()` — an exception from
the handler is caught here and logged, never rethrown. -/
def tryDispatch (l : Listener) (msg : Message) : DispatchOutcome :=
  match l.call msg with
  | .ok true => .handled
  | .ok false => .noMatch
  | .error e => .errorLogged e

/-- Embeds `Robot.receive`: `for listener in self._listeners:` run each
registered listener on the message, in registration order, with the
per-listener try/except of `tryDispatch`. -/
def Robot.receive (listeners : List Listener) (msg : Message) :
    List DispatchOutcome :=
  listeners.map fun l => tryDispatch l msg

/-- True when the outcome records that the bound handler was invoked. -/
def DispatchOutcome.handlerRan : DispatchOutcome → Bool
  | .noMatch => false
  | .handled => true
  | .errorLogged _ => true

/-- State of `class Robot` relevant to registration and dispatch: the bot
name, the ordered listener list and the event bus. -/
structure RobotState where
  name : String
  listeners : List Listener
  bus : EventBus

/-- Embeds `Robot.__init__` with the default name. -/
def RobotState.init : RobotState := ⟨"Pybot", [], EventBus.empty⟩

/-- Embeds `Robot._add_listener`: appends `Listener(self, matcher, func)`. -/
def RobotState.addListener (r : RobotState) (matcher : Message → Option MatchRes)
    (func : Handler) : RobotState :=
  { r with listeners := r.listeners ++ [⟨matcher, func⟩] }

/-- Embeds `Robot.on(type)` applied to handler `f`: the returned wrapper
subscribes `f` on the bus and returns `f`.  The result pairs the state
after registration with the value the wrapper returns. -/
def RobotState.on (r : RobotState) (type : String) (f : Nat) :
    RobotState × Option Nat :=
  ({ r with bus := r.bus.subscribe type f }, some f)

/-- Embeds `Robot.respond(pattern)` applied to handler `f`: the wrapper
wraps `RegexMatcher(pattern)` in `DirectMessageMatcher(_, self.name)` and
registers the listener; the wrapper body has no `return` statement, so it
returns Python `None`. -/
def RobotState.respond (r : RobotState) (pattern : String) (f : Handler) :
    RobotState × Option Handler :=
  (r.addListener
    (fun msg => DirectMessageMatcher.matchMsg (RegexMatcher.matchMsg pattern)
      r.name msg) f,
   none)

/-- Embeds `Robot.hear(pattern)` applied to handler `f`: registers a bare
`RegexMatcher(pattern)` listener and returns `f`. -/
def RobotState.hear (r : RobotState) (pattern : String) (f : Handler) :
    RobotState × Option Handler :=
  (r.addListener (RegexMatcher.matchMsg pattern) f, some f)

/-- Embeds `Robot.listen(matcher)` applied to handler `f`: registers the
given matcher and returns `f`. -/
def RobotState.listen (r : RobotState) (m : Message → Option MatchRes)
    (f : Handler) : RobotState × Option Handler :=
  (r.addListener m f, some f)

/-- Base `Adapter.send`: `pass` — prints nothing.  Adapter methods are
modelled by the list of lines they print. -/
def Adapter.send (_ : Message) (_ : String) : List String := []

/-- Base `Adapter.reply`: `pass` — prints nothing. -/
def Adapter.reply (_ : Message) (_ : String) : List String := []

/-- Base `Adapter.topic`: `pass`. -/
def Adapter.topic (_ : Message) (_ : String) : List String := []

/-- Base `Adapter.play`: `pass`. -/
def Adapter.play (_ : Message) (_ : String) : List String := []

/-- Base `Adapter.emote`: `self.send(message, text)` — dynamic dispatch on
`self.send` is made explicit by passing the send method of the concrete
adapter. -/
def Adapter.emote (selfSend : Message → String → List String) (m : Message)
    (t : String) : List String :=
  selfSend m t

/-- Embeds `ShellAdapter.send`: `print(text)`. -/
def ShellAdapter.send (_ : Message) (t : String) : List String := [t]

/-- Embeds `ShellAdapter.emote`: `self.send(message, "* " + text)`. -/
def ShellAdapter.emote (m : Message) (t : String) : List String :=
  ShellAdapter.send m ("* " ++ t)

/-- Embeds `ShellAdapter.reply`: sends `message.user.name + ": " + text`;
raises (Python `AttributeError`) when `message.user` is `None`, hence the
`Option` result. -/
def ShellAdapter.reply (m : Message) (t : String) : Option (List String) :=
  m.user.map fun u => ShellAdapter.send m (u.name ++ ": " ++ t)

/-- Base-adapter `reply` in the words of claim C4: delegates to `send` with
the target user's display name prefixed to the text (for comparison with
the code-side `Adapter.reply` above). -/
def Adapter.replyClaimed (selfSend : Message → String → List String)
    (m : Message) (t : String) : Option (List String) :=
  m.user.map fun u => selfSend m (u.name ++ ": " ++ t)

/-- `RegexMatcher.match` in the words of claim C9 (for comparison with the
code-side `RegexMatcher.matchMsg`): returns `none` exactly when
`message.text` is absent, otherwise performs the unanchored search and
returns its result. -/
def regexMatchClaim (pattern : String) (msg : Message) : Option MatchRes :=
  match msg.text with
  | none => none
  | some t => (searchAux pattern.data t.data).map fun i => ⟨i, pattern⟩

/-- A handler that returns normally: used as concrete witness input. -/
def okHandler : Handler := fun _ => .ok ()

/-- A matcher that matches every message: concrete witness input. -/
def alwaysMatch : Message → Option MatchRes := fun _ => some ⟨0, "hi"⟩

/-- A listener whose matcher always matches and whose handler raises. -/
def lBoom : Listener := ⟨alwaysMatch, fun _ => .error "boom"⟩

/-- Concrete message with text "hi there". -/
def msgHi : Message := ⟨some ⟨1, "Alice"⟩, "shell", some "hi there", none⟩

/-- Concrete message whose text begins with a space before the bot name. -/
def msgLeadingSpace : Message :=
  ⟨some ⟨1, "Alice"⟩, "shell", some " pybot hi", none⟩

/-- Concrete message addressed to the bot: text "pybot: status". -/
def msgPybotStatus : Message :=
  ⟨some ⟨1, "Alice"⟩, "shell", some "pybot: status", none⟩

/-- Concrete message whose text is present but empty. -/
def msgEmptyText : Message := ⟨none, "shell", some "", none⟩

/-- Concrete message with text "say foo". -/
def msgSayFoo : Message := ⟨none, "shell", some "say foo", none⟩

/-- A concrete wrapped matcher: concrete witness input. -/
def wrappedEx : Message → Option MatchRes := fun _ => some ⟨0, "status"⟩

/-- A bus with the two handlers 1 and 2 subscribed (in order) to "e". -/
def bus2 : EventBus := (EventBus.empty.subscribe "e" 1).subscribe "e" 2

/-- A behaviour under which handler 1 raises and every other one returns. -/
def behFailFirst : Nat → Option String → Except String Unit :=
  fun h _ => if h = 1 then .error "boom" else .ok ()

/-- Helper: `DirectMessageMatcher.matchMsg` factored through its address
check — the matcher delegates to `wrapped` on the original message exactly
when `dmmAddressCheck` holds of the bot name and the text. -/
theorem dmm_matchMsg_eq_check (wrapped : Message → Option MatchRes)
    (name : String) (msg : Message) :
    DirectMessageMatcher.matchMsg wrapped name msg
      = if dmmAddressCheck name msg.text then wrapped msg else none := by
  unfold DirectMessageMatcher.matchMsg dmmAddressCheck
  cases msg.text with
  | none => simp
  | some t =>
    by_cases ht : t = ""
    · simp [ht]
    · simp only [ht, if_neg, if_false]
      cases splitOnSpaceChar (pyLower t.data) with
      | nil => simp
      | cons tok rest =>
        by_cases htok : rstripAddressChars (lstripSpace tok) = pyLower name.data <;>
          simp [htok]

/-- Helper: the unanchored literal search succeeds exactly when the pattern
is an infix of the text. -/
theorem searchAux_isSome (pat t : List Char) :
    (searchAux pat t).isSome ↔ pat <:+: t := by
  induction t with
  | nil =>
    cases pat with
    | nil => simp [searchAux, List.isPrefixOf]
    | cons c cs => simp [searchAux, List.isPrefixOf]
  | cons c rest ih =>
    simp only [searchAux]
    by_cases hp : pat.isPrefixOf (c :: rest)
    · simp only [if_pos hp, Option.isSome_some, true_iff]
      exact (List.isPrefixOf_iff_prefix.mp hp).isInfix
    · have hnp : ¬ pat <+: c :: rest := fun hc => hp (List.isPrefixOf_iff_prefix.mpr hc)
      simp only [if_neg hp, Option.isSome_map']
      rw [ih, List.infix_cons_iff]
      exact ⟨fun h => Or.inr h, fun h => h.elim (fun hc => absurd hc hnp) id⟩

/-- Helper: a successful search returns the leftmost occurrence. -/
theorem searchAux_some (pat t : List Char) (i : Nat)
    (h : searchAux pat t = some i) :
    pat <+: t.drop i ∧ ∀ j, j < i → ¬ pat <+: t.drop j := by
  induction t generalizing i with
  | nil =>
    simp only [searchAux] at h
    split at h
    case isTrue hp =>
      injection h with h
      subst h
      exact ⟨List.isPrefixOf_iff_prefix.mp hp, fun j hj => absurd hj (Nat.not_lt_zero j)⟩
    case isFalse hp => cases h
  | cons c rest ih =>
    simp only [searchAux] at h
    split at h
    case isTrue hp =>
      injection h with h
      subst h
      exact ⟨List.isPrefixOf_iff_prefix.mp hp, fun j hj => absurd hj (Nat.not_lt_zero j)⟩
    case isFalse hp =>
      rw [Option.map_eq_some'] at h
      obtain ⟨i', hi', hii⟩ := h
      subst hii
      obtain ⟨hpre, hmin⟩ := ih i' hi'
      refine ⟨by simpa using hpre, ?_⟩
      intro j hj
      cases j with
      | zero =>
        simpa using fun hc => hp (List.isPrefixOf_iff_prefix.mpr hc)
      | succ j' =>
        have hj' : j' < i' := by omega
        simpa using hmin j' hj'

/-- Helper: under a never-raising behaviour every subscribed handler is
invoked, in order, and no error propagates. -/
theorem runHandlers_alwaysOk (data : Option String) (l : List Nat) :
    runHandlers alwaysOk data l = (l, none) := by
  induction l with
  | nil => rfl
  | cons x xs ih => simp [runHandlers, alwaysOk, ih]

/-- Helper: only subscribed handlers are ever invoked by `runHandlers`. -/
theorem runHandlers_invoked_mem (beh : Nat → Option String → Except String Unit)
    (data : Option String) (l : List Nat) (x : Nat)
    (h : x ∈ (runHandlers beh data l).1) : x ∈ l := by
  induction l with
  | nil => simp [runHandlers] at h
  | cons y ys ih =>
    simp only [runHandlers] at h
    cases hb : beh y data with
    | ok u =>
      rw [hb] at h
      simp only [List.mem_cons] at h ⊢
      exact h.imp id ih
    | error e =>
      rw [hb] at h
      simp only [List.mem_singleton] at h
      simp [h]

/-- Helper: when every subscribed handler returns normally, all are invoked
in subscription order and no error propagates. -/
theorem runHandlers_allOk (beh : Nat → Option String → Except String Unit)
    (data : Option String) (l : List Nat)
    (h : ∀ x ∈ l, beh x data = .ok ()) :
    runHandlers beh data l = (l, none) := by
  induction l with
  | nil => rfl
  | cons x xs ih =>
    have hx : beh x data = .ok () := h x (List.mem_cons_self x xs)
    have ihx := ih fun y hy => h y (List.mem_cons_of_mem x hy)
    simp [runHandlers, hx, ihx]

/-- Helper: when the handlers before position `k` return normally and the
handler at position `k` raises `e`, exactly the first `k+1` handlers are
invoked and `e` propagates. -/
theorem runHandlers_firstFail (beh : Nat → Option String → Except String Unit)
    (data : Option String) (l : List Nat) (k : Nat) (hk : Nat) (e : String)
    (h1 : l[k]? = some hk)
    (h2 : ∀ x ∈ l.take k, beh x data = .ok ())
    (h3 : beh hk data = .error e) :
    runHandlers beh data l = (l.take (k + 1), some e) := by
  induction l generalizing k with
  | nil => simp at h1
  | cons x xs ih =>
    cases k with
    | zero =>
      simp only [List.getElem?_cons_zero, Option.some.injEq] at h1
      subst h1
      simp [runHandlers, h3]
    | succ k' =>
      have hx : beh x data = .ok () := h2 x (by simp [List.take_succ_cons])
      have h1' : xs[k']? = some hk := by simpa using h1
      have h2' : ∀ y ∈ xs.take k', beh y data = .ok () := fun y hy =>
        h2 y (by simp [List.take_succ_cons, hy])
      have := ih k' h1' h2'
      simp [runHandlers, hx, this, List.take_succ_cons]

/-- Helper: subscribing an already-subscribed handler leaves the bus
unchanged. -/
theorem subscribe_of_mem (b : EventBus) (type : String) (f : Nat)
    (h : f ∈ b.subs type) : b.subscribe type f = b := by
  simp [EventBus.subscribe, h]

/-- Helper: subscribing a new handler appends it to the list for its
event type. -/
theorem subs_subscribe_of_not_mem (b : EventBus) (type : String) (f : Nat)
    (h : f ∉ b.subs type) :
    (b.subscribe type f).subs type = b.subs type ++ [f] := by
  simp [EventBus.subscribe, h]

/-- Helper: repeated subscription of a handler already on the bus is a
no-op, any number of times. -/
theorem iterate_subscribe_of_mem (b : EventBus) (type : String) (f : Nat)
    (n : Nat) (h : f ∈ b.subs type) :
    (fun bb => EventBus.subscribe bb type f)^[n] b = b := by
  induction n with
  | zero => rfl
  | succ m ih => rw [Function.iterate_succ_apply, subscribe_of_mem b type f h, ih]

/-- Helper: `removeFirst` fails exactly on absent elements. -/
theorem removeFirst_of_not_mem (f : Nat) (l : List Nat) (h : f ∉ l) :
    removeFirst f l = none := by
  induction l with
  | nil => rfl
  | cons x xs ih =>
    simp only [List.mem_cons, not_or] at h
    rw [removeFirst, if_neg (fun hc => h.1 hc.symm), ih h.2]
    rfl

/-- Helper: removing an element that occurs exactly once removes its only
occurrence. -/
theorem removeFirst_count_one (f : Nat) (l : List Nat)
    (h : List.count f l = 1) :
    ∃ l', removeFirst f l = some l' ∧ f ∉ l' := by
  induction l with
  | nil => simp at h
  | cons x xs ih =>
    by_cases hx : x = f
    · subst hx
      have hc : List.count x xs = 0 := by
        have := List.count_cons_self x xs
        omega
      exact ⟨xs, by simp [removeFirst], List.count_eq_zero.mp hc⟩
    · have hcnt : List.count f xs = 1 := by
        have := List.count_cons f x xs
        simp only [beq_iff_eq, hx, if_false] at this
        omega
      obtain ⟨l', hl', hni⟩ := ih hcnt
      refine ⟨x :: l', ?_, ?_⟩
      · simp [removeFirst, hx, hl']
      · simp only [List.mem_cons, not_or]
        exact ⟨fun hc => hx hc.symm, hni⟩

/-- Claim C1: for every ordered list of registered listeners and every
incoming message, `Robot.receive` produces one outcome per listener in
registration order, where each outcome depends only on that listener and
the message (so an earlier raising handler never affects a later
listener); the bound handler runs exactly when (and, being run once per
listener, exactly once when) the matcher matches; and a raising handler is
recorded as a logged error inside `receive` — `receive` is total on plain
outcomes, so no exception propagates out of it. -/
theorem receive_ordered_isolated_dispatch (ls₁ ls₂ : List Listener)
    (lb : Listener) (msg : Message) :
    Robot.receive (ls₁ ++ lb :: ls₂) msg
        = Robot.receive ls₁ msg ++ tryDispatch lb msg :: Robot.receive ls₂ msg
    ∧ (∀ l : Listener, (tryDispatch l msg).handlerRan = (l.matcher msg).isSome)
    ∧ (∀ (l : Listener) (m : MatchRes) (e : String),
        l.matcher msg = some m → l.func ⟨msg, m⟩ = .error e →
          tryDispatch l msg = .errorLogged e) := by
  refine ⟨by simp [Robot.receive], ?_, ?_⟩
  · intro l
    cases hm : l.matcher msg with
    | none => simp [tryDispatch, Listener.call, hm, DispatchOutcome.handlerRan]
    | some m =>
      cases hf : l.func ⟨msg, m⟩ with
      | ok u => simp [tryDispatch, Listener.call, hm, hf, DispatchOutcome.handlerRan]
      | error e => simp [tryDispatch, Listener.call, hm, hf, DispatchOutcome.handlerRan]
  · intro l m e hm hf
    simp [tryDispatch, Listener.call, hm, hf]

/-- Witness for C1: a listener whose matcher matches and whose handler
raises "boom" yields the logged-error outcome inside `receive`. -/
theorem receive_ordered_isolated_dispatch_witness :
    tryDispatch lBoom msgHi = .errorLogged "boom" :=
  (receive_ordered_isolated_dispatch [] [] lBoom msgHi).2.2 lBoom ⟨0, "hi"⟩
    "boom" rfl rfl

/-- Counterexample to claim C2: for the text " pybot hi" (one leading
space) and bot name "Pybot", the first whitespace-delimited token after the
stripping described by the claim is "pybot", which equals the bot name
case-insensitively — yet `DirectMessageMatcher.match` does not proceed past
the address check (it returns none even with an always-matching wrapped
matcher), because the code splits on single space characters and the
leading space makes the first token empty. -/
theorem dmm_whitespace_claim_refuted :
    claimWhitespaceAddressCheck "Pybot" (some " pybot hi") = true
    ∧ DirectMessageMatcher.matchMsg (fun _ => some ⟨0, "hi"⟩) "Pybot"
        msgLeadingSpace = none := by
  refine ⟨by decide, ?_⟩
  decide

/-- Claim C2 as amended: `DirectMessageMatcher(wrapped, botName).match`
proceeds past the address check exactly when the text's first token under
splitting on single space characters — so other whitespace characters do
not delimit, and a text beginning with a space yields an empty first
token — after stripping leading spaces and trailing ':', '-', '=' and
space characters, equals botName case-insensitively; it returns none when
the text is absent or empty or the first token does not match.  For bot
name "Pybot" it matches "pybot: status" and "PYBOT status" but not
"hello pybot" and not " pybot hi". -/
theorem dmm_space_split_address_check :
    (∀ (wrapped : Message → Option MatchRes) (name : String) (msg : Message),
      DirectMessageMatcher.matchMsg wrapped name msg
        = if dmmAddressCheck name msg.text then wrapped msg else none)
    ∧ dmmAddressCheck "Pybot" (some "pybot: status") = true
    ∧ dmmAddressCheck "Pybot" (some "PYBOT status") = true
    ∧ dmmAddressCheck "Pybot" (some "hello pybot") = false
    ∧ dmmAddressCheck "Pybot" (some " pybot hi") = false
    ∧ (∀ name : String,
        dmmAddressCheck name none = false ∧ dmmAddressCheck name (some "") = false) := by
  refine ⟨dmm_matchMsg_eq_check, by decide, by decide, by decide, by decide, ?_⟩
  intro name
  exact ⟨rfl, by simp [dmmAddressCheck]⟩

/-- Claim C3 under the code as written: `hear`, `listen` and `on` return
the handler unchanged from their wrapper, but the `respond` wrapper has no
return statement, so it returns Python `None` — while still performing the
registration.  This evaluates each combinator at a concrete handler. -/
theorem respond_wrapper_returns_none :
    (RobotState.hear RobotState.init "hi" okHandler).2 = some okHandler
    ∧ (RobotState.listen RobotState.init (fun _ => none) okHandler).2 = some okHandler
    ∧ (RobotState.on RobotState.init "connected" 7).2 = some 7
    ∧ (RobotState.respond RobotState.init "status" okHandler).2 = none
    ∧ (RobotState.respond RobotState.init "status" okHandler).1.listeners.length = 1
    ∧ (RobotState.hear RobotState.init "hi" okHandler).1.listeners.length = 1
    ∧ (RobotState.on RobotState.init "connected" 7).1.bus.subs "connected" = [7] :=
  ⟨rfl, rfl, rfl, rfl, rfl, rfl, by simp [RobotState.init, RobotState.on,
    EventBus.subscribe, EventBus.empty]⟩

/-- Counterexample to claim C4: on the base `Adapter`, `reply` is a no-op
(`pass`) and does not delegate to `send` with a name prefix — with the
shell `send` as the dispatch target and a message from user "Alice", the
claimed behaviour would print "Alice: hi" while the base `reply` prints
nothing. -/
theorem base_reply_claim_refuted :
    Adapter.reply msgHi "hi" = []
    ∧ Adapter.replyClaimed ShellAdapter.send msgHi "hi" = some ["Alice: hi"]
    ∧ some (Adapter.reply msgHi "hi")
        ≠ Adapter.replyClaimed ShellAdapter.send msgHi "hi" := by
  refine ⟨rfl, rfl, ?_⟩
  decide

/-- Claim C4 as amended: on the base `Adapter`, `send`, `reply`, `topic`
and `play` are all no-ops and `emote` delegates to `send`; the reply that
delegates to `send` with the target user's display name prefixed is
`ShellAdapter.reply`, not the base default. -/
theorem adapter_default_behaviour :
    (∀ (m : Message) (t : String),
      Adapter.send m t = [] ∧ Adapter.reply m t = []
        ∧ Adapter.topic m t = [] ∧ Adapter.play m t = [])
    ∧ (∀ (s : Message → String → List String) (m : Message) (t : String),
        Adapter.emote s m t = s m t)
    ∧ (∀ (u : User) (room : String) (txt : Option String) (mid : Option Nat)
        (t : String),
        ShellAdapter.reply ⟨some u, room, txt, mid⟩ t
          = some (ShellAdapter.send ⟨some u, room, txt, mid⟩ (u.name ++ ": " ++ t))) :=
  ⟨fun _ _ => ⟨rfl, rfl, rfl, rfl⟩, fun _ _ _ => rfl, fun _ _ _ _ _ => rfl⟩

/-- Claim C5: when the address check of `DirectMessageMatcher` succeeds,
`match` returns exactly `wrapped.match(message)` applied to the original,
unmodified message — no prefix is stripped before delegation. -/
theorem dmm_delegates_original_message (wrapped : Message → Option MatchRes)
    (name : String) (msg : Message)
    (h : dmmAddressCheck name msg.text = true) :
    DirectMessageMatcher.matchMsg wrapped name msg = wrapped msg := by
  rw [dmm_matchMsg_eq_check, h]
  rfl

/-- Witness for C5: the bot name "Pybot" and the message with text
"pybot: status" pass the address check, and the matcher returns exactly
what the wrapped matcher returns on that message. -/
theorem dmm_delegates_original_message_witness :
    DirectMessageMatcher.matchMsg wrappedEx "Pybot" msgPybotStatus
      = wrappedEx msgPybotStatus :=
  dmm_delegates_original_message wrappedEx "Pybot" msgPybotStatus (by decide)

/-- Claim C6: `EventBus.subscribe` is idempotent under repeated
registration of the identical handler (identified by its opaque id) for
the same event type — after any positive number of such calls the handler
appears once in the subscription list, and a publish for that type invokes
it exactly once. -/
theorem subscribe_idempotent_publish_once (b : EventBus) (type : String)
    (f n : Nat) (data : Option String)
    (hni : f ∉ b.subs type) (hn : 1 ≤ n) :
    List.count f (((fun bb => EventBus.subscribe bb type f)^[n] b).subs type) = 1
    ∧ List.count f
        (EventBus.publish ((fun bb => EventBus.subscribe bb type f)^[n] b)
          type alwaysOk data).1 = 1 := by
  obtain ⟨m, rfl⟩ : ∃ m, n = m + 1 := ⟨n - 1, by omega⟩
  rw [Function.iterate_succ_apply]
  have hsub : (b.subscribe type f).subs type = b.subs type ++ [f] :=
    subs_subscribe_of_not_mem b type f hni
  have hmem : f ∈ (b.subscribe type f).subs type := by rw [hsub]; simp
  rw [iterate_subscribe_of_mem _ _ _ m hmem]
  have hcount : List.count f ((b.subscribe type f).subs type) = 1 := by
    rw [hsub, List.count_append, List.count_eq_zero.mpr hni]
    simp
  refine ⟨hcount, ?_⟩
  rw [EventBus.publish, runHandlers_alwaysOk]
  exact hcount

/-- Witness for C6: subscribing handler 7 three times on a fresh bus for
type "connected" leaves it registered exactly once. -/
theorem subscribe_idempotent_publish_once_witness :
    List.count 7
      (((fun bb => EventBus.subscribe bb "connected" 7)^[3] EventBus.empty).subs
        "connected") = 1 :=
  (subscribe_idempotent_publish_once EventBus.empty "connected" 7 3 none
    (by simp [EventBus.empty]) (by omega)).1

/-- Claim C7: `EventBus.unsubscribe` on a handler not registered for the
event type fails with `SubscriptionNotFoundError`; on a handler registered
(once, as `subscribe` guarantees) it removes it, after which no publish for
that type invokes it, under any behaviour. -/
theorem unsubscribe_not_found_or_removes (b : EventBus) (type : String)
    (f : Nat) :
    (f ∉ b.subs type → b.unsubscribe type f = .error .mk)
    ∧ (List.count f (b.subs type) = 1 →
        ∃ b', b.unsubscribe type f = .ok b' ∧ f ∉ b'.subs type
          ∧ ∀ (beh : Nat → Option String → Except String Unit)
              (data : Option String),
              f ∉ (EventBus.publish b' type beh data).1) := by
  constructor
  · intro hni
    simp [EventBus.unsubscribe, removeFirst_of_not_mem f _ hni]
  · intro hcnt
    obtain ⟨l', hl', hni⟩ := removeFirst_count_one f _ hcnt
    refine ⟨⟨fun t => if t = type then l' else b.subs t⟩, ?_, ?_, ?_⟩
    · simp [EventBus.unsubscribe, hl']
    · simpa using hni
    · intro beh data hmem
      rw [EventBus.publish] at hmem
      have hin := runHandlers_invoked_mem beh data _ f hmem
      simp at hin
      exact hni hin

/-- Witness for C7: unsubscribing handler 7 from a fresh bus fails with
`SubscriptionNotFoundError`. -/
theorem unsubscribe_not_found_or_removes_witness :
    EventBus.empty.unsubscribe "connected" 7 = .error .mk :=
  (unsubscribe_not_found_or_removes EventBus.empty "connected" 7).1
    (by simp [EventBus.empty])

/-- Claim C8: `EventBus.publish` invokes every handler registered for the
type in subscription order, synchronously, passing the data; when the
handlers before position k succeed and the handler at position k raises,
exactly the first k+1 handlers are invoked and the error propagates out of
publish, so the handlers subscribed after it are not invoked. -/
theorem publish_order_and_error_propagation (b : EventBus) (type : String)
    (beh : Nat → Option String → Except String Unit) (data : Option String) :
    ((∀ h ∈ b.subs type, beh h data = .ok ()) →
      EventBus.publish b type beh data = (b.subs type, none))
    ∧ (∀ (k hk : Nat) (e : String),
        (b.subs type)[k]? = some hk →
        (∀ h ∈ (b.subs type).take k, beh h data = .ok ()) →
        beh hk data = .error e →
        EventBus.publish b type beh data = ((b.subs type).take (k + 1), some e)) := by
  constructor
  · intro hall
    exact runHandlers_allOk beh data _ hall
  · intro k hk e h1 h2 h3
    exact runHandlers_firstFail beh data _ k hk e h1 h2 h3

/-- Witness for C8: on a bus with handlers 1 and 2 subscribed in order to
"e", a behaviour under which handler 1 raises "boom" makes publish invoke
only handler 1 and propagate the error, never invoking handler 2. -/
theorem publish_order_and_error_propagation_witness :
    EventBus.publish bus2 "e" behFailFirst none = ([1], some "boom") :=
  (publish_order_and_error_propagation bus2 "e" behFailFirst none).2 0 1 "boom"
    (by rfl) (by simp) rfl

/-- Counterexample to claim C9: at the empty pattern and a message whose
text is the empty string, the claimed behaviour (none only when text is
absent, otherwise search) produces the zero-width match at index 0 while
`RegexMatcher.match` returns none, because Python `if message.text:` is
false for the empty string. -/
theorem regex_empty_text_claim_refuted :
    RegexMatcher.matchMsg "" msgEmptyText = none
    ∧ regexMatchClaim "" msgEmptyText = some ⟨0, ""⟩
    ∧ RegexMatcher.matchMsg "" msgEmptyText ≠ regexMatchClaim "" msgEmptyText := by
  refine ⟨rfl, rfl, ?_⟩
  decide

/-- Claim C9 as amended: `RegexMatcher(pattern).match(message)` returns
none when `message.text` is absent or empty; otherwise it performs an
unanchored substring search and returns the leftmost match or none — in
particular `RegexMatcher("foo")` returns a non-empty match iff the text
contains "foo". -/
theorem regex_matcher_search (pat : String) (msg : Message) :
    (msg.text = none → RegexMatcher.matchMsg pat msg = none)
    ∧ (msg.text = some "" → RegexMatcher.matchMsg pat msg = none)
    ∧ (∀ t, msg.text = some t →
        ((RegexMatcher.matchMsg pat msg).isSome ↔ pat.data <:+: t.data ∧ t ≠ ""))
    ∧ (∀ t, msg.text = some t →
        ((RegexMatcher.matchMsg "foo" msg).isSome ↔ "foo".data <:+: t.data))
    ∧ (∀ t r, msg.text = some t → RegexMatcher.matchMsg pat msg = some r →
        r.matched = pat ∧ pat.data <+: t.data.drop r.pos
          ∧ ∀ j, j < r.pos → ¬ pat.data <+: t.data.drop j) := by
  refine ⟨?_, ?_, ?_, ?_, ?_⟩
  · intro h; simp [RegexMatcher.matchMsg, h]
  · intro h; simp [RegexMatcher.matchMsg, h]
  · intro t ht
    simp only [RegexMatcher.matchMsg, ht]
    by_cases h0 : t = ""
    · subst h0; simp
    · simp only [if_neg h0, Option.isSome_map']
      rw [searchAux_isSome]
      simp [h0]
  · intro t ht
    simp only [RegexMatcher.matchMsg, ht]
    by_cases h0 : t = ""
    · subst h0
      simp only [if_pos rfl, Option.isSome_none, false_iff]
      decide
    · simp only [if_neg h0, Option.isSome_map']
      exact searchAux_isSome _ _
  · intro t r ht hr
    simp only [RegexMatcher.matchMsg, ht] at hr
    by_cases h0 : t = ""
    · rw [if_pos h0] at hr; cases hr
    · rw [if_neg h0, Option.map_eq_some'] at hr
      obtain ⟨i, hi, hri⟩ := hr
      obtain ⟨hpre, hmin⟩ := searchAux_some pat.data t.data i hi
      subst hri
      exact ⟨rfl, hpre, hmin⟩

/-- Witness for C9: on the message with text "say foo", `RegexMatcher`
with pattern "foo" produces a match. -/
theorem regex_matcher_search_witness :
    (RegexMatcher.matchMsg "foo" msgSayFoo).isSome = true := by
  have h := (regex_matcher_search "foo" msgSayFoo).2.2.2.1 "say foo" rfl
  exact h.mpr (by decide)

/-- Claim C10: for every (literal) pattern, bot name and wrapped matcher, a
message whose text is the empty string is treated by `RegexMatcher.match`
and `DirectMessageMatcher.match` exactly like a message with absent text —
both return none, even for patterns that match the empty string. -/
theorem empty_text_treated_as_absent (pat name : String)
    (wrapped : Message → Option MatchRes) (u : Option User) (room : String)
    (mid : Option Nat) :
    RegexMatcher.matchMsg pat ⟨u, room, some "", mid⟩ = none
    ∧ RegexMatcher.matchMsg pat ⟨u, room, none, mid⟩ = none
    ∧ DirectMessageMatcher.matchMsg wrapped name ⟨u, room, some "", mid⟩ = none
    ∧ DirectMessageMatcher.matchMsg wrapped name ⟨u, room, none, mid⟩ = none := by
  refine ⟨?_, rfl, ?_, rfl⟩
  · simp [RegexMatcher.matchMsg]
  · simp [DirectMessageMatcher.matchMsg]

end Pybot
